import Mathlib

/-!
Shallow embedding of the federated-search orchestrator of the
farhapartex/search-proxy repository (Go), covering:

* the data model of internal/models/result.go (SearchResult, FetchResult);
* the orchestrator internal/handlers/search.go (Search, fetchFromPlatform),
  with the nondeterministic parts (goroutine scheduling, channel arrival
  order, fetch results, context expiry) made explicit inputs;
* the request boundary of the gRPC server (FederatedSearch,
  validateSearchRequest);
* the helper TruncateString of internal/fetchers (Go strings are modelled
  as lists of characters; Go len coincides with the list length for
  one-byte characters, and none of the properties proved below depend on
  multi-byte slicing).

Machine integers (int, int32) are modelled as Int; none of the embedded
code can overflow them on the inputs considered.
-/

namespace SearchProxy

/-- models.SearchResult: the unified internal result structure
(internal/models/result.go, lines 11-18). -/
structure SearchResult where
  platform : String
  title : String
  snippet : String
  url : String
  timestamp : Int
  metadata : List (String × String)
deriving DecidableEq, Repr

/-- pb.Result: the protobuf result record produced by SearchResult.ToProto
(internal/models/result.go, lines 31-40). -/
structure PbResult where
  platform : String
  title : String
  snippet : String
  url : String
  timestamp : Int
  metadata : List (String × String)
deriving DecidableEq, Repr

/-- SearchResult.ToProto: field-for-field conversion to the protobuf record
(internal/models/result.go, lines 31-40). -/
def SearchResult.toProto (r : SearchResult) : PbResult :=
  { platform := r.platform
  , title := r.title
  , snippet := r.snippet
  , url := r.url
  , timestamp := r.timestamp
  , metadata := r.metadata }

/-- models.FetchResult: the per-provider Outcome record
(internal/models/result.go, lines 42-48).  The Go field Error has type
error; it is modelled as Option String, none standing for a nil error.
Duration is an abstract count of elapsed time units. -/
structure FetchResult where
  platform : String
  results : List SearchResult
  error : Option String
  duration : Nat
  timedOut : Bool
deriving DecidableEq, Repr

/-- pb.SearchRequest: the request record carried by the gRPC boundary.
MaxResults is an int32, modelled as Int. -/
structure SearchRequest where
  query : String
  maxResults : Int
  platforms : List String
deriving DecidableEq, Repr

/-- pb.ResponseMetadata (response metadata in the proto schema). -/
structure ResponseMetadata where
  responseTimeMs : Int
  platformsQueried : Int
deriving DecidableEq, Repr

/-- pb.SearchResponse: the response record built by Search
(internal/handlers/search.go, lines 121-131). -/
structure SearchResponse where
  results : List PbResult
  totalCount : Int
  platformsSuccess : List String
  platformsTimeout : List String
  platformsError : List String
  metadata : ResponseMetadata
deriving DecidableEq, Repr

/-- config.ServerConfig (internal/config/config.go, lines 24-28); the two
timeouts are abstract counts of milliseconds. -/
structure ServerConfig where
  serverTimeout : Nat
  perAPITimeout : Nat
deriving DecidableEq, Repr

/-- config.PerformanceConfig, restricted to the field the orchestrator
reads (internal/config/config.go, line 52). -/
structure PerformanceConfig where
  maxResultsPerPlatform : Int
deriving DecidableEq, Repr

/-- config.Config, restricted to the fields the orchestrator reads. -/
structure Config where
  server : ServerConfig
  performance : PerformanceConfig
deriving DecidableEq, Repr

/-- The key set, in insertion order, of the fetcher registry built by
NewSearchHandler (internal/handlers/search.go, lines 29-42): the handler
registers exactly the keys github, stackoverflow and reddit, each mapped
to a fetcher whose Name method returns that same key. -/
def registryKeys : List String := ["github", "stackoverflow", "reddit"]

/-- Membership test in the fetcher registry: the Go lookup
fetcher, exists := h.fetchers[platform] (internal/handlers/search.go,
line 72). -/
def registryHas (p : String) : Bool := registryKeys.contains p

/-- The default platform list of Search (internal/handlers/search.go,
line 55), used when the request names no platform. -/
def defaultPlatforms : List String := ["github", "stackoverflow", "reddit"]

/-- The effective platform list of Search (internal/handlers/search.go,
lines 52-56): the request platforms, or the default list when empty. -/
def effectivePlatforms (req : SearchRequest) : List String :=
  if req.platforms.isEmpty then defaultPlatforms else req.platforms

/-- The effective per-platform result cap of Search
(internal/handlers/search.go, lines 59-62): the requested MaxResults
unless it is nonpositive or above 100, in which case the configured
default MaxResultsPerPlatform. -/
def effectiveMaxResults (cfg : Config) (req : SearchRequest) : Int :=
  if req.maxResults ≤ 0 ∨ 100 < req.maxResults then
    cfg.performance.maxResultsPerPlatform
  else
    req.maxResults

/-- The platforms for which Search actually spawns a goroutine
(internal/handlers/search.go, lines 71-80): effective platforms filtered
to those present in the registry; unknown names are skipped with a
warning log. -/
def dispatchedPlatforms (req : SearchRequest) : List String :=
  (effectivePlatforms req).filter registryHas

/-- The dispatched provider tasks together with the result cap each task
is invoked with (internal/handlers/search.go, line 79): every goroutine
receives the same effective cap. -/
def dispatchedTasks (cfg : Config) (req : SearchRequest) : List (String × Int) :=
  (dispatchedPlatforms req).map (fun p => (p, effectiveMaxResults cfg req))

/-- The accumulator of the fan-in collection loop of Search
(internal/handlers/search.go, lines 89-92): the four slices allResults,
platformsSuccess, platformsTimeout, platformsError. -/
structure FanInAcc where
  allResults : List PbResult
  platformsSuccess : List String
  platformsTimeout : List String
  platformsError : List String
deriving DecidableEq, Repr

/-- The empty initial accumulator (nil slices). -/
def initAcc : FanInAcc :=
  { allResults := []
  , platformsSuccess := []
  , platformsTimeout := []
  , platformsError := [] }

/-- One iteration of the fan-in loop body of Search
(internal/handlers/search.go, lines 94-115): a FetchResult with a non-nil
Error is appended to platformsTimeout when TimedOut is set and to
platformsError otherwise; a FetchResult with a nil Error is appended to
platformsSuccess and its results, converted by ToProto, are appended to
allResults. -/
def fanInStep (acc : FanInAcc) (fr : FetchResult) : FanInAcc :=
  match fr.error with
  | some _ =>
      if fr.timedOut then
        { acc with platformsTimeout := acc.platformsTimeout ++ [fr.platform] }
      else
        { acc with platformsError := acc.platformsError ++ [fr.platform] }
  | none =>
      { acc with
          platformsSuccess := acc.platformsSuccess ++ [fr.platform]
        , allResults := acc.allResults ++ fr.results.map SearchResult.toProto }

/-- The whole fan-in loop (internal/handlers/search.go, lines 94-115),
folded over the sequence of FetchResults read from resultsChan in arrival
order.  The loop ranges over the channel until it is closed, so it
consumes the entire received sequence. -/
def fanIn (outcomes : List FetchResult) : FanInAcc :=
  outcomes.foldl fanInStep initAcc

/-- Search (internal/handlers/search.go, lines 48-137).  The
nondeterministic inputs of the real function are made explicit:
outcomes is the sequence of FetchResults read from resultsChan in arrival
order (one per dispatched goroutine), and responseTimeMs the measured
wall-clock duration.  The Go function returns a response pointer and an
error; its single return statement (line 136) returns the built response
and a nil error, modelled as the pair (response, none). -/
def Search (cfg : Config) (req : SearchRequest) (outcomes : List FetchResult)
    (responseTimeMs : Int) : SearchResponse × Option String :=
  let platforms := effectivePlatforms req
  let _ := effectiveMaxResults cfg req
  let acc := fanIn outcomes
  ( { results := acc.allResults
    , totalCount := acc.allResults.length
    , platformsSuccess := acc.platformsSuccess
    , platformsTimeout := acc.platformsTimeout
    , platformsError := acc.platformsError
    , metadata :=
        { responseTimeMs := responseTimeMs
        , platformsQueried := platforms.length } }
  , none )

/-- The error value the context package reports when a deadline elapsed,
plus its other non-nil value; ctx.Err() is modelled as Option CtxErr with
none for a nil error. -/
inductive CtxErr where
  | deadlineExceeded
  | canceled
deriving DecidableEq, Repr

/-- fetchFromPlatform (internal/handlers/search.go, lines 140-173).  The
outcome of fetcher.Fetch is an explicit input (ok with a result list, or
error with a message), as are the value of ctx.Err() on the per-task
deadline context at the classification point and the measured duration.
On a fetch error the FetchResult records the error and sets TimedOut
exactly when the task context reports deadline-exceeded; on success it
records the results. -/
def fetchFromPlatform (platformName : String)
    (fetchOutcome : Except String (List SearchResult))
    (ctxErr : Option CtxErr) (duration : Nat) : FetchResult :=
  match fetchOutcome with
  | .error e =>
      { platform := platformName
      , results := []
      , error := some e
      , duration := duration
      , timedOut := ctxErr = some CtxErr.deadlineExceeded }
  | .ok results =>
      { platform := platformName
      , results := results
      , error := none
      , duration := duration
      , timedOut := false }

/-- The failure classification of an Outcome, as read off a FetchResult by
the fan-in loop (internal/handlers/search.go, lines 95-107): timeout when
Error is non-nil and TimedOut is set, error otherwise when Error is
non-nil, and none (success) when Error is nil. -/
inductive Failure where
  | noneF
  | timeout
  | error (detail : String)
deriving DecidableEq, Repr

/-- Classification of a FetchResult into the three-way failure taxonomy,
following the branch structure of the fan-in loop
(internal/handlers/search.go, lines 95-107). -/
def classifyOutcome (fr : FetchResult) : Failure :=
  match fr.error with
  | some e => if fr.timedOut then Failure.timeout else Failure.error e
  | none => Failure.noneF

/-- The valid platform set of validateSearchRequest (gRPC server file,
lines 349-353). -/
def validPlatforms : List String := ["github", "stackoverflow", "reddit"]

/-- validateSearchRequest (gRPC server file, lines 332-363): returns the
first validation error, or none when the request is valid.  Go len on the
query string counts bytes; the model counts characters, which coincides on
one-byte characters. -/
def validateSearchRequest (req : SearchRequest) : Option String :=
  if req.query = "" then
    some "query cannot be empty"
  else if 500 < req.query.length then
    some "query too long (max 500 characters)"
  else if req.maxResults < 0 then
    some "max_results cannot be negative"
  else if 100 < req.maxResults then
    some "max_results cannot exceed 100"
  else
    match req.platforms.find? (fun p => !(validPlatforms.contains p)) with
    | some p => some ("invalid platform: " ++ p ++ " (valid: github, stackoverflow, reddit)")
    | none => none

/-- FederatedSearch (gRPC server file, lines 302-320): validates the
request and returns the validation error without invoking the search
handler; otherwise calls Search under the server-timeout context and
wraps a non-nil search error, returning the response otherwise. -/
def FederatedSearch (cfg : Config) (req : SearchRequest)
    (outcomes : List FetchResult) (responseTimeMs : Int) :
    Except String SearchResponse :=
  match validateSearchRequest req with
  | some e => Except.error e
  | none =>
      match Search cfg req outcomes responseTimeMs with
      | (_, some e) => Except.error ("search failed: " ++ e)
      | (resp, none) => Except.ok resp

/-- Completion time of the Search collection phase, as a function of the
completion times of the dispatched tasks.  The collection loop
for fetchResult := range resultsChan (internal/handlers/search.go,
line 94) ends only when resultsChan is closed, and the closing goroutine
(lines 83-86) runs close only after wg.Wait() returns, that is after
every dispatched goroutine has called wg.Done() and sent its outcome.
The tasks run concurrently, so the close, and with it the return of
Search, happens at the maximum task completion time; the loop contains no
alternative exit tied to the global deadline context. -/
def searchCompletionTime (taskDurations : List Nat) : Nat :=
  taskDurations.foldr max 0

/-- The character predicate of Go unicode.IsSpace restricted to the
Latin-1 range, which is all strings.TrimSpace consults on the inputs
considered: tab, newline, vertical tab, form feed, carriage return,
space, next line and no-break space. -/
def goIsSpace (c : Char) : Bool :=
  c = Char.ofNat 9 ∨ c = Char.ofNat 10 ∨ c = Char.ofNat 11 ∨
  c = Char.ofNat 12 ∨ c = Char.ofNat 13 ∨ c = Char.ofNat 32 ∨
  c = Char.ofNat 0x85 ∨ c = Char.ofNat 0xA0

/-- strings.TrimSpace on the character-list model of Go strings: drop
leading and trailing space characters. -/
def goTrimSpace (s : List Char) : List Char :=
  ((s.dropWhile goIsSpace).reverse.dropWhile goIsSpace).reverse

/-- The three trailing dots appended by TruncateString. -/
def ellipsisChars : List Char := [Char.ofNat 46, Char.ofNat 46, Char.ofNat 46]

/-- TruncateString (GitHub fetcher file, lines 124-129) on the
character-list model of Go strings.  Go evaluates s[:maxLength-3] with a
signed index and panics when the index is negative or exceeds len(s);
the panic is modelled as none.  Otherwise the function returns s
unchanged when len(s) <= maxLength, and the trimmed prefix of length
maxLength-3 followed by three dots when it truncates. -/
def TruncateString (s : List Char) (maxLength : Int) : Option (List Char) :=
  if (s.length : Int) ≤ maxLength then
    some s
  else if maxLength - 3 < 0 ∨ (s.length : Int) < maxLength - 3 then
    none
  else
    some (goTrimSpace (s.take (maxLength - 3).toNat) ++ ellipsisChars)

/-- The default configuration values of config.Load
(internal/config/config.go, lines 70-94): server timeout 500 ms, per-API
timeout 400 ms, 20 results per platform. -/
def defaultConfig : Config :=
  { server := { serverTimeout := 500, perAPITimeout := 400 }
  , performance := { maxResultsPerPlatform := 20 } }

theorem foldl_fanInStep_platformsSuccess (outcomes : List FetchResult) (acc : FanInAcc) :
    (outcomes.foldl fanInStep acc).platformsSuccess
      = acc.platformsSuccess
        ++ (outcomes.filter (fun o => o.error.isNone)).map (fun o => o.platform) := by
  induction outcomes generalizing acc with
  | nil => simp
  | cons o os ih =>
    cases h : o.error with
    | none =>
      simp [List.foldl_cons, ih, fanInStep, h, List.filter_cons]
    | some e =>
      cases ht : o.timedOut <;>
        simp [List.foldl_cons, ih, fanInStep, h, ht, List.filter_cons]

theorem foldl_fanInStep_platformsTimeout (outcomes : List FetchResult) (acc : FanInAcc) :
    (outcomes.foldl fanInStep acc).platformsTimeout
      = acc.platformsTimeout
        ++ (outcomes.filter (fun o => o.error.isSome && o.timedOut)).map (fun o => o.platform) := by
  induction outcomes generalizing acc with
  | nil => simp
  | cons o os ih =>
    cases h : o.error with
    | none =>
      simp [List.foldl_cons, ih, fanInStep, h, List.filter_cons]
    | some e =>
      cases ht : o.timedOut <;>
        simp [List.foldl_cons, ih, fanInStep, h, ht, List.filter_cons]

theorem foldl_fanInStep_platformsError (outcomes : List FetchResult) (acc : FanInAcc) :
    (outcomes.foldl fanInStep acc).platformsError
      = acc.platformsError
        ++ (outcomes.filter (fun o => o.error.isSome && !o.timedOut)).map (fun o => o.platform) := by
  induction outcomes generalizing acc with
  | nil => simp
  | cons o os ih =>
    cases h : o.error with
    | none =>
      simp [List.foldl_cons, ih, fanInStep, h, List.filter_cons]
    | some e =>
      cases ht : o.timedOut <;>
        simp [List.foldl_cons, ih, fanInStep, h, ht, List.filter_cons]

theorem foldl_fanInStep_allResults (outcomes : List FetchResult) (acc : FanInAcc) :
    (outcomes.foldl fanInStep acc).allResults
      = acc.allResults
        ++ (outcomes.filter (fun o => o.error.isNone)).flatMap
            (fun o => o.results.map SearchResult.toProto) := by
  induction outcomes generalizing acc with
  | nil => simp
  | cons o os ih =>
    cases h : o.error with
    | none =>
      simp [List.foldl_cons, ih, fanInStep, h, List.filter_cons]
    | some e =>
      cases ht : o.timedOut <;>
        simp [List.foldl_cons, ih, fanInStep, h, ht, List.filter_cons]

theorem fanIn_platformsSuccess (outcomes : List FetchResult) :
    (fanIn outcomes).platformsSuccess
      = (outcomes.filter (fun o => o.error.isNone)).map (fun o => o.platform) := by
  simp [fanIn, foldl_fanInStep_platformsSuccess, initAcc]

theorem fanIn_platformsTimeout (outcomes : List FetchResult) :
    (fanIn outcomes).platformsTimeout
      = (outcomes.filter (fun o => o.error.isSome && o.timedOut)).map (fun o => o.platform) := by
  simp [fanIn, foldl_fanInStep_platformsTimeout, initAcc]

theorem fanIn_platformsError (outcomes : List FetchResult) :
    (fanIn outcomes).platformsError
      = (outcomes.filter (fun o => o.error.isSome && !o.timedOut)).map (fun o => o.platform) := by
  simp [fanIn, foldl_fanInStep_platformsError, initAcc]

theorem fanIn_allResults (outcomes : List FetchResult) :
    (fanIn outcomes).allResults
      = (outcomes.filter (fun o => o.error.isNone)).flatMap
          (fun o => o.results.map SearchResult.toProto) := by
  simp [fanIn, foldl_fanInStep_allResults, initAcc]

theorem mem_fanIn_platformsSuccess {p : String} {outcomes : List FetchResult} :
    p ∈ (fanIn outcomes).platformsSuccess
      ↔ ∃ o, o ∈ outcomes ∧ o.error = none ∧ o.platform = p := by
  simp [fanIn_platformsSuccess, List.mem_filter, Option.isNone_iff_eq_none, and_assoc]

theorem mem_fanIn_platformsTimeout {p : String} {outcomes : List FetchResult} :
    p ∈ (fanIn outcomes).platformsTimeout
      ↔ ∃ o, o ∈ outcomes ∧ o.error.isSome = true ∧ o.timedOut = true ∧ o.platform = p := by
  simp [fanIn_platformsTimeout, List.mem_filter, and_assoc]

theorem mem_fanIn_platformsError {p : String} {outcomes : List FetchResult} :
    p ∈ (fanIn outcomes).platformsError
      ↔ ∃ o, o ∈ outcomes ∧ o.error.isSome = true ∧ o.timedOut = false ∧ o.platform = p := by
  simp [fanIn_platformsError, List.mem_filter, and_assoc]

theorem fanIn_partition_lengths (outcomes : List FetchResult) :
    (outcomes.filter (fun o => o.error.isNone)).length
      + (outcomes.filter (fun o => o.error.isSome && o.timedOut)).length
      + (outcomes.filter (fun o => o.error.isSome && !o.timedOut)).length
      = outcomes.length := by
  induction outcomes with
  | nil => rfl
  | cons o os ih =>
    cases h : o.error <;> cases ht : o.timedOut <;>
      simp [List.filter_cons, h, ht] <;> omega

theorem goTrimSpace_length_le (s : List Char) : (goTrimSpace s).length ≤ s.length := by
  unfold goTrimSpace
  calc ((s.dropWhile goIsSpace).reverse.dropWhile goIsSpace).reverse.length
      = ((s.dropWhile goIsSpace).reverse.dropWhile goIsSpace).length := by
        exact List.length_reverse _
    _ ≤ (s.dropWhile goIsSpace).reverse.length := (List.dropWhile_sublist _).length_le
    _ = (s.dropWhile goIsSpace).length := List.length_reverse _
    _ ≤ s.length := (List.dropWhile_sublist _).length_le

/-- Claim C8: a request with an empty platform list dispatches one task to
every provider registered by NewSearchHandler and only those; the default
platform list of Search coincides with the registry key set. -/
theorem empty_platforms_dispatches_all_registered (q : String) (m : Int) :
    dispatchedPlatforms { query := q, maxResults := m, platforms := [] } = registryKeys
      ∧ defaultPlatforms = registryKeys :=
  ⟨rfl, rfl⟩

/-- Claim C9: every dispatched provider task is invoked with the effective
result cap, which equals the requested MaxResults when that value lies in
1..100 and the configured MaxResultsPerPlatform default otherwise. -/
theorem dispatchedTasks_effective_cap (cfg : Config) (req : SearchRequest) :
    ∀ t ∈ dispatchedTasks cfg req,
      (1 ≤ req.maxResults ∧ req.maxResults ≤ 100 → t.2 = req.maxResults) ∧
      ((req.maxResults ≤ 0 ∨ 100 < req.maxResults) →
        t.2 = cfg.performance.maxResultsPerPlatform) := by
  intro t ht
  obtain ⟨p, _, rfl⟩ := List.mem_map.mp ht
  refine ⟨fun h => ?_, fun h => ?_⟩ <;>
    · simp only [effectiveMaxResults]
      split <;> omega

/-- Claim C9, witness: with the default configuration and a request whose
MaxResults is 0, the github task is dispatched with the configured default
cap of 20. -/
theorem dispatchedTasks_effective_cap_witness :
    ("github", (20 : Int))
        ∈ dispatchedTasks defaultConfig { query := "q", maxResults := 0, platforms := ["github"] }
      ∧ (20 : Int) = defaultConfig.performance.maxResultsPerPlatform :=
  ⟨by decide
  , (dispatchedTasks_effective_cap defaultConfig
      { query := "q", maxResults := 0, platforms := ["github"] }
      ("github", (20 : Int)) (by decide)).2 (by decide)⟩

/-- Claim C4: the Outcome built by fetchFromPlatform is classified timeout
exactly when the fetch failed and the task context reports
deadline-exceeded, classified error with the fetch error detail exactly
when the fetch failed and the task context does not report
deadline-exceeded, and classified success whenever the fetch returned
results. -/
theorem fetchFromPlatform_classification (platformName : String)
    (fetchOutcome : Except String (List SearchResult)) (ctxErr : Option CtxErr) (d : Nat) :
    (classifyOutcome (fetchFromPlatform platformName fetchOutcome ctxErr d) = Failure.timeout
        ↔ (∃ e, fetchOutcome = Except.error e) ∧ ctxErr = some CtxErr.deadlineExceeded) ∧
    (∀ e, classifyOutcome (fetchFromPlatform platformName fetchOutcome ctxErr d) = Failure.error e
        ↔ fetchOutcome = Except.error e ∧ ctxErr ≠ some CtxErr.deadlineExceeded) ∧
    (∀ rs, fetchOutcome = Except.ok rs →
        classifyOutcome (fetchFromPlatform platformName fetchOutcome ctxErr d) = Failure.noneF) := by
  cases fetchOutcome with
  | error e =>
    by_cases hc : ctxErr = some CtxErr.deadlineExceeded <;>
      simp [fetchFromPlatform, classifyOutcome, hc]
  | ok rs => simp [fetchFromPlatform, classifyOutcome]

/-- Claim C4, witness: a failed fetch under a deadline-exceeded task
context is classified as a timeout. -/
theorem fetchFromPlatform_classification_witness :
    classifyOutcome (fetchFromPlatform "github" (Except.error "boom")
        (some CtxErr.deadlineExceeded) 400) = Failure.timeout :=
  (fetchFromPlatform_classification "github" (Except.error "boom")
      (some CtxErr.deadlineExceeded) 400).1.mpr ⟨⟨"boom", rfl⟩, rfl⟩

/-- Claim C1, counterexample: the collection loop of Search has no exit
tied to the global deadline, so a single dispatched task taking ten times
the default global timeout of 500 ms delays the return of Search to
5000 ms, far beyond the global timeout plus any comparable slack. -/
theorem searchCompletionTime_exceeds_global_budget :
    searchCompletionTime [5000] = 5000 ∧ ¬ searchCompletionTime [5000] ≤ 500 + 500 := by
  constructor
  · rfl
  · decide

/-- Claim C1, amended: the fan-in collection loop terminates only when the
count of received Outcomes equals the count of dispatched tasks (the
results channel closes only after every dispatched goroutine completes,
and the loop processes every received Outcome); consequently Search
returns within a bound B exactly in so far as every dispatched task
itself completes within B — not regardless of how long a task takes. -/
theorem search_collection_waits_for_all_tasks (outcomes : List FetchResult)
    (taskDurations : List Nat) (B : Nat) (h : ∀ d ∈ taskDurations, d ≤ B) :
    ((fanIn outcomes).platformsSuccess.length + (fanIn outcomes).platformsTimeout.length
        + (fanIn outcomes).platformsError.length = outcomes.length) ∧
    searchCompletionTime taskDurations ≤ B := by
  constructor
  · simp only [fanIn_platformsSuccess, fanIn_platformsTimeout, fanIn_platformsError,
      List.length_map]
    exact fanIn_partition_lengths outcomes
  · induction taskDurations with
    | nil => exact Nat.zero_le B
    | cons d ds ih =>
      simp only [searchCompletionTime, List.foldr_cons] at ih ⊢
      refine Nat.max_le.mpr ⟨h d (List.mem_cons_self d ds), ih ?_⟩
      intro x hx
      exact h x (List.mem_cons_of_mem d hx)

/-- Claim C1 (amended), witness: one successful github Outcome is fully
processed by the loop, and two tasks of 100 and 200 ms both bounded by
400 ms give a completion time within 400 ms. -/
theorem search_collection_waits_for_all_tasks_witness :
    ((fanIn [(⟨"github", [], none, 5, false⟩ : FetchResult)]).platformsSuccess.length
      + (fanIn [(⟨"github", [], none, 5, false⟩ : FetchResult)]).platformsTimeout.length
      + (fanIn [(⟨"github", [], none, 5, false⟩ : FetchResult)]).platformsError.length = 1) ∧
    searchCompletionTime [100, 200] ≤ 400 :=
  search_collection_waits_for_all_tasks [(⟨"github", [], none, 5, false⟩ : FetchResult)]
    [100, 200] 400 (by decide)

/-- Claim C10: TruncateString returns its input unchanged when it fits in
maxLength; when it truncates with maxLength at least 3 it returns a string
of length at most maxLength ending in three dots; and when len(s) exceeds
maxLength with maxLength below 3 the slice index maxLength-3 is negative
and the function panics (modelled as none) — so the function is not
total. -/
theorem truncateString_panics_below_three (s : List Char) (maxLength : Int) :
    ((s.length : Int) ≤ maxLength → TruncateString s maxLength = some s) ∧
    (maxLength < (s.length : Int) ∧ 3 ≤ maxLength →
      ∃ t, TruncateString s maxLength = some t ∧ (t.length : Int) ≤ maxLength ∧
        ellipsisChars <:+ t) ∧
    (maxLength < (s.length : Int) ∧ maxLength < 3 → TruncateString s maxLength = none) := by
  refine ⟨fun h => ?_, fun h => ?_, fun h => ?_⟩
  · simp only [TruncateString]
    rw [if_pos h]
  · obtain ⟨h1, h2⟩ := h
    simp only [TruncateString]
    rw [if_neg (by omega), if_neg (by omega)]
    refine ⟨_, rfl, ?_, List.suffix_append _ _⟩
    have hlen : (goTrimSpace (s.take (maxLength - 3).toNat)).length
        ≤ (maxLength - 3).toNat := by
      calc (goTrimSpace (s.take (maxLength - 3).toNat)).length
          ≤ (s.take (maxLength - 3).toNat).length := goTrimSpace_length_le _
        _ ≤ (maxLength - 3).toNat := by
            rw [List.length_take]
            exact Nat.min_le_left _ _
    have htn : ((maxLength - 3).toNat : Int) = maxLength - 3 :=
      Int.toNat_of_nonneg (by omega)
    have hell : (ellipsisChars.length : Int) = 3 := rfl
    rw [List.length_append]
    push_cast
    omega
  · obtain ⟨h1, h2⟩ := h
    simp only [TruncateString]
    rw [if_neg (by omega), if_pos (Or.inl (by omega))]

/-- Claim C10, witness: a six-character string truncated to maxLength 5
yields a five-character string ending in three dots, and truncated to
maxLength 2 the function panics. -/
theorem truncateString_panics_below_three_witness :
    ((2 : Int) < ((String.toList "hello!").length : Int) ∧ (2 : Int) < 3) ∧
    TruncateString (String.toList "hello!") 2 = none :=
  ⟨⟨by decide, by decide⟩
  , (truncateString_panics_below_three (String.toList "hello!") 2).2.2 ⟨by decide, by decide⟩⟩

/-- Claim C6: boundary validation runs before the orchestrator and rejects
the whole request exactly when the query is empty, the query exceeds 500
characters, MaxResults is outside 0..100, or some requested platform name
is not a known provider id; on rejection FederatedSearch returns the
validation error without consulting the orchestrator, so no provider task
is dispatched. -/
theorem validateSearchRequest_rejects_iff (req : SearchRequest) :
    ((validateSearchRequest req).isSome
      ↔ (req.query = "" ∨ 500 < req.query.length ∨ req.maxResults < 0 ∨
          100 < req.maxResults ∨ ∃ p, p ∈ req.platforms ∧ p ∉ validPlatforms)) ∧
    (∀ e, validateSearchRequest req = some e →
      ∀ (cfg : Config) (outcomes : List FetchResult) (rtMs : Int),
        FederatedSearch cfg req outcomes rtMs = Except.error e) := by
  constructor
  · simp only [validateSearchRequest]
    split_ifs with h1 h2 h3 h4
    · simp [h1]
    · simp [h2]
    · simp [h3]
    · simp [h4]
    · cases hf : req.platforms.find? (fun p => !(validPlatforms.contains p)) with
      | some p =>
        have hp := List.find?_some hf
        have hmem := List.mem_of_find?_eq_some hf
        simp only [Option.isSome_some, true_iff]
        refine Or.inr (Or.inr (Or.inr (Or.inr ⟨p, hmem, ?_⟩)))
        simpa using hp
      | none =>
        have hall := List.find?_eq_none.mp hf
        simp only [Option.isSome_none, Bool.false_eq_true, false_iff]
        rintro (h | h | h | h | ⟨p, hpmem, hpnot⟩)
        · exact h1 h
        · exact h2 h
        · exact h3 h
        · exact h4 h
        · exact hpnot (by simpa using hall p hpmem)
  · intro e he cfg outcomes rtMs
    simp [FederatedSearch, he]

/-- Claim C6, witness: the empty-query request is rejected before the
orchestrator runs, whatever outcomes the providers would have
produced. -/
theorem validateSearchRequest_rejects_iff_witness :
    validateSearchRequest { query := "", maxResults := 0, platforms := [] }
        = some "query cannot be empty" ∧
    FederatedSearch defaultConfig { query := "", maxResults := 0, platforms := [] } [] 0
        = Except.error "query cannot be empty" :=
  ⟨rfl
  , (validateSearchRequest_rejects_iff
      { query := "", maxResults := 0, platforms := [] }).2
      "query cannot be empty" rfl defaultConfig [] 0⟩

theorem validateSearchRequest_platforms_valid {req : SearchRequest}
    (h : validateSearchRequest req = none) :
    ∀ p ∈ req.platforms, registryHas p = true := by
  intro p hp
  simp only [validateSearchRequest] at h
  split_ifs at h
  revert h
  cases hf : req.platforms.find? (fun q => !(validPlatforms.contains q)) with
  | some q => intro h; cases h
  | none =>
    intro _
    have hnot := List.find?_eq_none.mp hf p hp
    have hb : validPlatforms.contains p = true := by
      cases hcb : validPlatforms.contains p with
      | true => rfl
      | false => exact absurd (by rw [hcb]; rfl) hnot
    exact hb

theorem dispatched_eq_effective_of_valid {req : SearchRequest}
    (h : validateSearchRequest req = none) :
    dispatchedPlatforms req = effectivePlatforms req := by
  by_cases hp : req.platforms.isEmpty
  · simp only [dispatchedPlatforms, effectivePlatforms, hp, if_pos]
    rfl
  · simp only [dispatchedPlatforms, effectivePlatforms, hp, if_neg, Bool.false_eq_true,
      not_false_eq_true]
    exact List.filter_eq_self.mpr (validateSearchRequest_platforms_valid h)

/-- Claim C2, counterexample: with a requested platform list naming the
unknown platform bogus next to github, Search dispatches a single task
(bogus is skipped with a warning) yet reports PlatformsQueried = 2, the
length of the requested list — not the number of dispatched tasks. -/
theorem platformsQueried_counts_skipped_platform :
    (dispatchedPlatforms { query := "q", maxResults := 10, platforms := ["github", "bogus"] }).length = 1
    ∧ (Search defaultConfig { query := "q", maxResults := 10, platforms := ["github", "bogus"] }
        [] 0).1.metadata.platformsQueried = 2 := by
  constructor
  · rfl
  · rfl

/-- Claim C2, amended: PlatformsQueried equals the length of the effective
platform list (the requested list, or the three-platform default when the
request names none), which counts requested names absent from the
registry even though no task is dispatched for them; for every request
that passes boundary validation all effective names are registered, and
PlatformsQueried then equals the number of dispatched tasks. -/
theorem platformsQueried_eq_effective_length (cfg : Config) (req : SearchRequest)
    (outcomes : List FetchResult) (rtMs : Int) :
    (Search cfg req outcomes rtMs).1.metadata.platformsQueried
        = ((effectivePlatforms req).length : Int)
    ∧ (validateSearchRequest req = none →
        (Search cfg req outcomes rtMs).1.metadata.platformsQueried
          = ((dispatchedPlatforms req).length : Int)) := by
  refine ⟨rfl, fun h => ?_⟩
  rw [dispatched_eq_effective_of_valid h]
  rfl

/-- Claim C2 (amended), witness: a validated request naming github and
reddit reports PlatformsQueried = 2, the number of dispatched tasks. -/
theorem platformsQueried_eq_effective_length_witness :
    validateSearchRequest { query := "q", maxResults := 10, platforms := ["github", "reddit"] }
        = none ∧
    (Search defaultConfig { query := "q", maxResults := 10, platforms := ["github", "reddit"] }
        [] 0).1.metadata.platformsQueried
      = ((dispatchedPlatforms
          { query := "q", maxResults := 10, platforms := ["github", "reddit"] }).length : Int) :=
  ⟨by decide
  , (platformsQueried_eq_effective_length defaultConfig
      { query := "q", maxResults := 10, platforms := ["github", "reddit"] } [] 0).2 (by decide)⟩

/-- Claim C5: Search always returns a nil error — provider failures are
recovered locally into Outcomes and never propagate — and when it does,
FederatedSearch forwards the response; when every collected Outcome
failed, the response still carries empty results, an empty success set,
and every collected provider in the timeout or error partition. -/
theorem search_never_returns_error (cfg : Config) (req : SearchRequest)
    (outcomes : List FetchResult) (rtMs : Int) :
    (Search cfg req outcomes rtMs).2 = none ∧
    (validateSearchRequest req = none →
      FederatedSearch cfg req outcomes rtMs = Except.ok (Search cfg req outcomes rtMs).1) ∧
    ((∀ o ∈ outcomes, o.error.isSome = true) →
      (Search cfg req outcomes rtMs).1.results = [] ∧
      (Search cfg req outcomes rtMs).1.platformsSuccess = [] ∧
      ∀ o ∈ outcomes,
        o.platform ∈ (Search cfg req outcomes rtMs).1.platformsTimeout
        ∨ o.platform ∈ (Search cfg req outcomes rtMs).1.platformsError) := by
  refine ⟨rfl, fun hv => ?_, fun hfail => ⟨?_, ?_, ?_⟩⟩
  · simp [FederatedSearch, hv, Search]
  · show (fanIn outcomes).allResults = []
    rw [fanIn_allResults]
    have : outcomes.filter (fun o => o.error.isNone) = [] :=
      List.filter_eq_nil_iff.mpr
        (fun o ho => by have hs := hfail o ho; cases he : o.error <;> simp_all)
    simp [this]
  · show (fanIn outcomes).platformsSuccess = []
    rw [fanIn_platformsSuccess]
    have : outcomes.filter (fun o => o.error.isNone) = [] :=
      List.filter_eq_nil_iff.mpr
        (fun o ho => by have hs := hfail o ho; cases he : o.error <;> simp_all)
    simp [this]
  · intro o ho
    cases ht : o.timedOut with
    | true =>
      exact Or.inl (mem_fanIn_platformsTimeout.mpr ⟨o, ho, hfail o ho, ht, rfl⟩)
    | false =>
      exact Or.inr (mem_fanIn_platformsError.mpr ⟨o, ho, hfail o ho, ht, rfl⟩)

/-- Claim C5, witness: with both collected Outcomes failed (one timeout,
one error), the response has a nil error, no results, an empty success
set, and both providers in the timeout or error partition. -/
theorem search_never_returns_error_witness :
    (∀ o ∈ [(⟨"github", [], some "x", 1, true⟩ : FetchResult),
            (⟨"reddit", [], some "y", 2, false⟩ : FetchResult)], o.error.isSome = true) ∧
    ((Search defaultConfig { query := "q", maxResults := 10, platforms := ["github", "reddit"] }
        [(⟨"github", [], some "x", 1, true⟩ : FetchResult),
         (⟨"reddit", [], some "y", 2, false⟩ : FetchResult)] 0).1.results = [] ∧
     (Search defaultConfig { query := "q", maxResults := 10, platforms := ["github", "reddit"] }
        [(⟨"github", [], some "x", 1, true⟩ : FetchResult),
         (⟨"reddit", [], some "y", 2, false⟩ : FetchResult)] 0).1.platformsSuccess = [] ∧
     ∀ o ∈ [(⟨"github", [], some "x", 1, true⟩ : FetchResult),
            (⟨"reddit", [], some "y", 2, false⟩ : FetchResult)],
       o.platform ∈ (Search defaultConfig
          { query := "q", maxResults := 10, platforms := ["github", "reddit"] }
          [(⟨"github", [], some "x", 1, true⟩ : FetchResult),
           (⟨"reddit", [], some "y", 2, false⟩ : FetchResult)] 0).1.platformsTimeout
       ∨ o.platform ∈ (Search defaultConfig
          { query := "q", maxResults := 10, platforms := ["github", "reddit"] }
          [(⟨"github", [], some "x", 1, true⟩ : FetchResult),
           (⟨"reddit", [], some "y", 2, false⟩ : FetchResult)] 0).1.platformsError) :=
  ⟨by decide
  , (search_never_returns_error defaultConfig
      { query := "q", maxResults := 10, platforms := ["github", "reddit"] }
      [(⟨"github", [], some "x", 1, true⟩ : FetchResult),
       (⟨"reddit", [], some "y", 2, false⟩ : FetchResult)] 0).2.2 (by decide)⟩

theorem fanIn_unique_class {outcomes : List FetchResult}
    (hnodup : (outcomes.map (fun o => o.platform)).Nodup)
    {o : FetchResult} (ho : o ∈ outcomes) :
    (o.platform ∈ (fanIn outcomes).platformsSuccess ↔ o.error = none) ∧
    (o.platform ∈ (fanIn outcomes).platformsTimeout
        ↔ o.error.isSome = true ∧ o.timedOut = true) ∧
    (o.platform ∈ (fanIn outcomes).platformsError
        ↔ o.error.isSome = true ∧ o.timedOut = false) := by
  have inj := List.inj_on_of_nodup_map hnodup
  refine ⟨⟨fun h => ?_, fun h => mem_fanIn_platformsSuccess.mpr ⟨o, ho, h, rfl⟩⟩,
          ⟨fun h => ?_, fun h => mem_fanIn_platformsTimeout.mpr ⟨o, ho, h.1, h.2, rfl⟩⟩,
          ⟨fun h => ?_, fun h => mem_fanIn_platformsError.mpr ⟨o, ho, h.1, h.2, rfl⟩⟩⟩
  · obtain ⟨o2, ho2, he2, hp2⟩ := mem_fanIn_platformsSuccess.mp h
    have heq : o2 = o := inj ho2 ho hp2
    rwa [heq] at he2
  · obtain ⟨o2, ho2, he2, ht2, hp2⟩ := mem_fanIn_platformsTimeout.mp h
    have heq : o2 = o := inj ho2 ho hp2
    rw [heq] at he2 ht2
    exact ⟨he2, ht2⟩
  · obtain ⟨o2, ho2, he2, ht2, hp2⟩ := mem_fanIn_platformsError.mp h
    have heq : o2 = o := inj ho2 ho hp2
    rw [heq] at he2 ht2
    exact ⟨he2, ht2⟩

/-- Claim C3, counterexample: the partition property does not hold for
every execution.  A request naming github twice passes boundary
validation (validateSearchRequest does not reject duplicates), Search
dispatches two goroutines both producing Outcomes named github, and when
one succeeds while the other times out, github appears in both
platformsSuccess and platformsTimeout — a provider name in more than one
of the three sets. -/
theorem search_partition_overlap_on_duplicate_request :
    validateSearchRequest { query := "q", maxResults := 10, platforms := ["github", "github"] }
        = none ∧
    dispatchedPlatforms { query := "q", maxResults := 10, platforms := ["github", "github"] }
        = ["github", "github"] ∧
    (∀ o ∈ [(⟨"github", [], none, 1, false⟩ : FetchResult),
            (⟨"github", [], some "slow", 2, true⟩ : FetchResult)],
        o.platform ∈ dispatchedPlatforms
          { query := "q", maxResults := 10, platforms := ["github", "github"] }) ∧
    "github" ∈ (Search defaultConfig
        { query := "q", maxResults := 10, platforms := ["github", "github"] }
        [(⟨"github", [], none, 1, false⟩ : FetchResult),
         (⟨"github", [], some "slow", 2, true⟩ : FetchResult)] 0).1.platformsSuccess ∧
    "github" ∈ (Search defaultConfig
        { query := "q", maxResults := 10, platforms := ["github", "github"] }
        [(⟨"github", [], none, 1, false⟩ : FetchResult),
         (⟨"github", [], some "slow", 2, true⟩ : FetchResult)] 0).1.platformsTimeout := by
  decide

/-- Claim C3, amended: for any execution whose collected Outcomes carry
platform names drawn from the dispatched provider set with ONE Outcome
per distinct provider name — as in every execution whose requested
platform list repeats no name; a duplicated requested name dispatches two
same-named tasks and can place that name in two partition sets — the
three partition sets of the response are subsets of the dispatched set,
no provider name appears in more than one of the three, and every
provider with a collected Outcome appears in exactly one. -/
theorem search_partition_invariant (cfg : Config) (req : SearchRequest)
    (outcomes : List FetchResult) (rtMs : Int)
    (hsub : ∀ o ∈ outcomes, o.platform ∈ dispatchedPlatforms req)
    (hnodup : (outcomes.map (fun o => o.platform)).Nodup) :
    (∀ p, (p ∈ (Search cfg req outcomes rtMs).1.platformsSuccess
        ∨ p ∈ (Search cfg req outcomes rtMs).1.platformsTimeout
        ∨ p ∈ (Search cfg req outcomes rtMs).1.platformsError)
      → p ∈ dispatchedPlatforms req) ∧
    (∀ p, (p ∈ (Search cfg req outcomes rtMs).1.platformsSuccess
          → p ∉ (Search cfg req outcomes rtMs).1.platformsTimeout
            ∧ p ∉ (Search cfg req outcomes rtMs).1.platformsError)
      ∧ (p ∈ (Search cfg req outcomes rtMs).1.platformsTimeout
          → p ∉ (Search cfg req outcomes rtMs).1.platformsError)) ∧
    (∀ o ∈ outcomes,
        (o.platform ∈ (Search cfg req outcomes rtMs).1.platformsSuccess
          ∧ o.platform ∉ (Search cfg req outcomes rtMs).1.platformsTimeout
          ∧ o.platform ∉ (Search cfg req outcomes rtMs).1.platformsError)
      ∨ (o.platform ∉ (Search cfg req outcomes rtMs).1.platformsSuccess
          ∧ o.platform ∈ (Search cfg req outcomes rtMs).1.platformsTimeout
          ∧ o.platform ∉ (Search cfg req outcomes rtMs).1.platformsError)
      ∨ (o.platform ∉ (Search cfg req outcomes rtMs).1.platformsSuccess
          ∧ o.platform ∉ (Search cfg req outcomes rtMs).1.platformsTimeout
          ∧ o.platform ∈ (Search cfg req outcomes rtMs).1.platformsError)) := by
  have hS : (Search cfg req outcomes rtMs).1.platformsSuccess
      = (fanIn outcomes).platformsSuccess := rfl
  have hT : (Search cfg req outcomes rtMs).1.platformsTimeout
      = (fanIn outcomes).platformsTimeout := rfl
  have hE : (Search cfg req outcomes rtMs).1.platformsError
      = (fanIn outcomes).platformsError := rfl
  rw [hS, hT, hE]
  refine ⟨?_, ?_, ?_⟩
  · rintro p (hp | hp | hp)
    · obtain ⟨o, ho, _, hpl⟩ := mem_fanIn_platformsSuccess.mp hp
      exact hpl ▸ hsub o ho
    · obtain ⟨o, ho, _, _, hpl⟩ := mem_fanIn_platformsTimeout.mp hp
      exact hpl ▸ hsub o ho
    · obtain ⟨o, ho, _, _, hpl⟩ := mem_fanIn_platformsError.mp hp
      exact hpl ▸ hsub o ho
  · intro p
    constructor
    · intro hp
      obtain ⟨o, ho, he, hpl⟩ := mem_fanIn_platformsSuccess.mp hp
      obtain ⟨hcS, hcT, hcE⟩ := fanIn_unique_class hnodup ho
      subst hpl
      refine ⟨fun hmem => ?_, fun hmem => ?_⟩
      · have hbad := (hcT.mp hmem).1
        rw [he] at hbad
        simp at hbad
      · have hbad := (hcE.mp hmem).1
        rw [he] at hbad
        simp at hbad
    · intro hp hmem
      obtain ⟨o, ho, he, ht, hpl⟩ := mem_fanIn_platformsTimeout.mp hp
      obtain ⟨hcS, hcT, hcE⟩ := fanIn_unique_class hnodup ho
      subst hpl
      have hbad := (hcE.mp hmem).2
      rw [ht] at hbad
      simp at hbad
  · intro o ho
    obtain ⟨hcS, hcT, hcE⟩ := fanIn_unique_class hnodup ho
    cases he : o.error with
    | none =>
      refine Or.inl ⟨hcS.mpr he, fun hmem => ?_, fun hmem => ?_⟩
      · have hbad := (hcT.mp hmem).1
        rw [he] at hbad
        simp at hbad
      · have hbad := (hcE.mp hmem).1
        rw [he] at hbad
        simp at hbad
    | some e =>
      cases ht : o.timedOut with
      | true =>
        refine Or.inr (Or.inl ⟨fun hmem => ?_, hcT.mpr ⟨by rw [he]; rfl, ht⟩,
            fun hmem => ?_⟩)
        · have hbad := hcS.mp hmem
          rw [he] at hbad
          simp at hbad
        · have hbad := (hcE.mp hmem).2
          rw [ht] at hbad
          simp at hbad
      | false =>
        refine Or.inr (Or.inr ⟨fun hmem => ?_, fun hmem => ?_,
            hcE.mpr ⟨by rw [he]; rfl, ht⟩⟩)
        · have hbad := hcS.mp hmem
          rw [he] at hbad
          simp at hbad
        · have hbad := (hcT.mp hmem).2
          rw [ht] at hbad
          simp at hbad

/-- Claim C3 (amended), witness: a two-provider execution (github succeeded, reddit
timed out) with distinct platform names in the dispatched set satisfies
the partition invariant; in particular the three partition sets stay
inside the dispatched set. -/
theorem search_partition_invariant_witness :
    (∀ o ∈ [(⟨"github", [], none, 1, false⟩ : FetchResult),
            (⟨"reddit", [], some "slow", 2, true⟩ : FetchResult)],
        o.platform ∈ dispatchedPlatforms
          { query := "q", maxResults := 10, platforms := ["github", "reddit"] }) ∧
    (([(⟨"github", [], none, 1, false⟩ : FetchResult),
       (⟨"reddit", [], some "slow", 2, true⟩ : FetchResult)].map
        (fun o => o.platform)).Nodup) ∧
    (∀ p, (p ∈ (Search defaultConfig
            { query := "q", maxResults := 10, platforms := ["github", "reddit"] }
            [(⟨"github", [], none, 1, false⟩ : FetchResult),
             (⟨"reddit", [], some "slow", 2, true⟩ : FetchResult)] 0).1.platformsSuccess
        ∨ p ∈ (Search defaultConfig
            { query := "q", maxResults := 10, platforms := ["github", "reddit"] }
            [(⟨"github", [], none, 1, false⟩ : FetchResult),
             (⟨"reddit", [], some "slow", 2, true⟩ : FetchResult)] 0).1.platformsTimeout
        ∨ p ∈ (Search defaultConfig
            { query := "q", maxResults := 10, platforms := ["github", "reddit"] }
            [(⟨"github", [], none, 1, false⟩ : FetchResult),
             (⟨"reddit", [], some "slow", 2, true⟩ : FetchResult)] 0).1.platformsError)
      → p ∈ dispatchedPlatforms
          { query := "q", maxResults := 10, platforms := ["github", "reddit"] }) :=
  ⟨by decide, by decide
  , (search_partition_invariant defaultConfig
      { query := "q", maxResults := 10, platforms := ["github", "reddit"] }
      [(⟨"github", [], none, 1, false⟩ : FetchResult),
       (⟨"reddit", [], some "slow", 2, true⟩ : FetchResult)] 0
      (by decide) (by decide)).1⟩

/-- Claim C7: folding any permutation of an Outcome sequence yields the
same success, timeout and error partition sets (membership is unchanged)
and a permutation — the same multiset — of the concatenated results; only
the concatenation order of results may differ. -/
theorem fanIn_order_insensitive (xs ys : List FetchResult) (h : List.Perm xs ys) :
    (∀ p, p ∈ (fanIn xs).platformsSuccess ↔ p ∈ (fanIn ys).platformsSuccess) ∧
    (∀ p, p ∈ (fanIn xs).platformsTimeout ↔ p ∈ (fanIn ys).platformsTimeout) ∧
    (∀ p, p ∈ (fanIn xs).platformsError ↔ p ∈ (fanIn ys).platformsError) ∧
    List.Perm (fanIn xs).allResults (fanIn ys).allResults := by
  refine ⟨fun p => ?_, fun p => ?_, fun p => ?_, ?_⟩
  · rw [fanIn_platformsSuccess, fanIn_platformsSuccess]
    exact ((h.filter _).map _).mem_iff
  · rw [fanIn_platformsTimeout, fanIn_platformsTimeout]
    exact ((h.filter _).map _).mem_iff
  · rw [fanIn_platformsError, fanIn_platformsError]
    exact ((h.filter _).map _).mem_iff
  · rw [fanIn_allResults, fanIn_allResults]
    exact (h.filter _).flatMap_right _

/-- Claim C7, witness: swapping a successful github Outcome carrying one
result with a failed reddit Outcome leaves partition membership and the
result multiset unchanged. -/
theorem fanIn_order_insensitive_witness :
    List.Perm
      [(⟨"github", [⟨"github", "t", "s", "u", 0, []⟩], none, 1, false⟩ : FetchResult),
       (⟨"reddit", [], some "x", 2, true⟩ : FetchResult)]
      [(⟨"reddit", [], some "x", 2, true⟩ : FetchResult),
       (⟨"github", [⟨"github", "t", "s", "u", 0, []⟩], none, 1, false⟩ : FetchResult)] ∧
    List.Perm
      (fanIn [(⟨"github", [⟨"github", "t", "s", "u", 0, []⟩], none, 1, false⟩ : FetchResult),
              (⟨"reddit", [], some "x", 2, true⟩ : FetchResult)]).allResults
      (fanIn [(⟨"reddit", [], some "x", 2, true⟩ : FetchResult),
              (⟨"github", [⟨"github", "t", "s", "u", 0, []⟩], none, 1, false⟩ : FetchResult)]).allResults :=
  ⟨by decide
  , (fanIn_order_insensitive
      [(⟨"github", [⟨"github", "t", "s", "u", 0, []⟩], none, 1, false⟩ : FetchResult),
       (⟨"reddit", [], some "x", 2, true⟩ : FetchResult)]
      [(⟨"reddit", [], some "x", 2, true⟩ : FetchResult),
       (⟨"github", [⟨"github", "t", "s", "u", 0, []⟩], none, 1, false⟩ : FetchResult)]
      (by decide)).2.2.2⟩

end SearchProxy
